import Mathlib

/-!
# examples/dlopen.c

A shallow embedding of the `main` function of `examples/dlopen.c`, the
dynamic-loading example of the repository, and the properties of its runs.

The program talks to the platform through `dlopen`, `dlerror`, `dlsym`,
`dlclose`, the call through the resolved function pointer, `printf`,
`fprintf(stderr, ...)` and `exit`.  None of these is code of the program: the
loader and the resolved function are an arbitrary `Platform`, and `main` is
ordinary state passing over a `Machine` that holds the loader's last-error
slot, the rest of the platform state, the two output streams and the trace of
the operations performed so far.  The loader operations and the writes return
to `main`; the call through the resolved function pointer may not (the pointer
is never tested, and a call of the null address kills the process), in which
case the run ends at the call, without `exit`.
-/

namespace Dlopen

/-! ## Data model -/

/-- A C pointer value (`void *`, a function pointer); `0` is the null pointer. -/
abbrev Ptr := Nat

/-- The null pointer, `NULL`. -/
def NULL : Ptr := 0

/-- A C `double`, kept as its IEEE-754 binary64 bit pattern.  No arithmetic is
done on it by `main`: a value is only passed to the resolved function and
handed to `printf`. -/
structure Dbl where
  bits : Nat
  deriving DecidableEq, Repr

/-- The literal `2.0` (sign 0, biased exponent 1024, fraction 0). -/
def Dbl.two : Dbl := ⟨0x4000000000000000⟩

/-- The sign bit of a binary64 pattern. -/
def Dbl.sign (x : Dbl) : Nat := x.bits / 2 ^ 63 % 2

/-- The biased exponent, eleven bits. -/
def Dbl.exponent (x : Dbl) : Nat := x.bits / 2 ^ 52 % 2 ^ 11

/-- The fraction, the low fifty-two bits. -/
def Dbl.fraction (x : Dbl) : Nat := x.bits % 2 ^ 52

/-- The number a binary64 pattern stands for; `none` for an infinity or a
NaN. -/
def Dbl.value (x : Dbl) : Option ℚ :=
  if x.exponent = 2047 then none
  else if x.exponent = 0 then
    some ((-1) ^ x.sign * (x.fraction : ℚ) / 2 ^ 1074)
  else if x.exponent < 1075 then
    some ((-1) ^ x.sign * ((2 ^ 52 + x.fraction : Nat) : ℚ) / 2 ^ (1075 - x.exponent))
  else
    some ((-1) ^ x.sign * ((2 ^ 52 + x.fraction : Nat) : ℚ) * 2 ^ (x.exponent - 1075))

/-- The loading modes of `<dlfcn.h>` that can be passed as `dlopen` flags. -/
inductive Mode where
  | RTLD_LAZY
  | RTLD_NOW
  deriving DecidableEq, Repr

/-- The status `EXIT_SUCCESS` of `<stdlib.h>`. -/
def EXIT_SUCCESS : Nat := 0

/-- What one call of a loader function does: the value it returns, the
diagnostic it stores in the last-error slot (`none`: it leaves the slot
alone), and the platform state it leaves behind. -/
structure Ret (α : Type) (τ : Type) where
  ret : α
  diag : Option String
  world : τ

/-- The platform the program runs on: the behaviour of the dynamic loader
(`dlopen`, `dlsym`, `dlclose`) over a platform state `τ`, the effect of calling
the code at an address with one `double` argument (`none`: the call does not
return, the process is killed in it), the fixed-notation conversion `printf`
uses for a `double` with a given number of decimals, the text `%s` produces
for a null pointer, and the value of `EXIT_FAILURE`. -/
structure Platform (τ : Type) where
  dlopen : String → Mode → τ → Ret Ptr τ
  dlsym : Ptr → String → τ → Ret Ptr τ
  dlclose : Ptr → τ → Ret Int τ
  call : Ptr → Dbl → τ → Option (Dbl × τ)
  fixed : Dbl → Nat → String
  nullText : String
  EXIT_FAILURE : Nat

/-- The operations `main` asks of the platform, with their arguments and
results.  A call that does not return has the result `none`. -/
inductive Event where
  | dlopen (file : String) (mode : Mode) (ret : Ptr)
  | dlerror (ret : Option String)
  | dlsym (handle : Ptr) (symbol : String) (ret : Ptr)
  | call (addr : Ptr) (arg : Dbl) (ret : Option Dbl)
  | printf (format : String) (arg : Dbl)
  | fprintf_stderr (format : String) (arg : Option String)
  | dlclose (handle : Ptr) (ret : Int)
  | exit (status : Nat)
  deriving DecidableEq, Repr

/-- The state of a run: the loader's last-error slot, the rest of the platform
state, what has been written to the two streams and the operations performed
so far (oldest first). -/
structure Machine (τ : Type) where
  slot : Option String
  world : τ
  stdout : String
  stderr : String
  trace : List Event

/-- A finished run: the exit status (`none` when the run ended without
reaching `exit`, killed in the call of the resolved address) and the machine
at its end. -/
structure Outcome (τ : Type) where
  status : Option Nat
  final : Machine τ

/-- The machine `main` starts on: nothing written, nothing done yet. -/
def Machine.init {τ : Type} (slot : Option String) (world : τ) : Machine τ :=
  { slot := slot, world := world, stdout := "", stderr := "", trace := [] }

/-! ## The operations `main` uses -/

/-- A loader call stores its diagnostic, if it produced one, in the slot. -/
def setError (slot : Option String) (diag : Option String) : Option String :=
  match diag with
  | some d => some d
  | none => slot

/-- `dlopen(file, mode)`. -/
def dlopen {τ : Type} (P : Platform τ) (file : String) (mode : Mode)
    (m : Machine τ) : Ptr × Machine τ :=
  let r := P.dlopen file mode m.world
  (r.ret, { m with slot := setError m.slot r.diag, world := r.world,
                   trace := m.trace ++ [Event.dlopen file mode r.ret] })

/-- `dlerror()`: returns the content of the slot (`none` is `NULL`) and
clears it. -/
def dlerror {τ : Type} (m : Machine τ) : Option String × Machine τ :=
  (m.slot, { m with slot := none, trace := m.trace ++ [Event.dlerror m.slot] })

/-- `dlsym(handle, symbol)`. -/
def dlsym {τ : Type} (P : Platform τ) (handle : Ptr) (symbol : String)
    (m : Machine τ) : Ptr × Machine τ :=
  let r := P.dlsym handle symbol m.world
  (r.ret, { m with slot := setError m.slot r.diag, world := r.world,
                   trace := m.trace ++ [Event.dlsym handle symbol r.ret] })

/-- `dlclose(handle)`. -/
def dlclose {τ : Type} (P : Platform τ) (handle : Ptr)
    (m : Machine τ) : Int × Machine τ :=
  let r := P.dlclose handle m.world
  (r.ret, { m with slot := setError m.slot r.diag, world := r.world,
                   trace := m.trace ++ [Event.dlclose handle r.ret] })

/-- `(*addr)(arg)`: the call through a function pointer, made whatever the
address is.  The result is `none` when the call does not return. -/
def call {τ : Type} (P : Platform τ) (addr : Ptr) (arg : Dbl)
    (m : Machine τ) : Option Dbl × Machine τ :=
  match P.call addr arg m.world with
  | some r =>
    (some r.1, { m with world := r.2, trace := m.trace ++ [Event.call addr arg (some r.1)] })
  | none => (none, { m with trace := m.trace ++ [Event.call addr arg none] })

/-- The text of a `char *` under `%s`. -/
def cstr {τ : Type} (P : Platform τ) : Option String → String
  | some s => s
  | none => P.nullText

/-- `fprintf(stderr, "%s\n", arg)`. -/
def fprintf_stderr_s {τ : Type} (P : Platform τ) (arg : Option String)
    (m : Machine τ) : Machine τ :=
  { m with stderr := m.stderr ++ (cstr P arg ++ "\n"),
           trace := m.trace ++ [Event.fprintf_stderr "%s\n" arg] }

/-- `printf("%f\n", arg)`: `%f` carries no precision, so the conversion is the
fixed notation with the default of six decimals. -/
def printf_f {τ : Type} (P : Platform τ) (arg : Dbl) (m : Machine τ) : Machine τ :=
  { m with stdout := m.stdout ++ (P.fixed arg 6 ++ "\n"),
           trace := m.trace ++ [Event.printf "%f\n" arg] }

/-- `exit(status)`: the run ends here. -/
def exit {τ : Type} (status : Nat) (m : Machine τ) : Outcome τ :=
  { status := some status, final := { m with trace := m.trace ++ [Event.exit status] } }

/-- The end of a run whose call of the resolved address did not return. -/
def killed {τ : Type} (m : Machine τ) : Outcome τ :=
  { status := none, final := m }

/-! ## The program -/

/-- The function `main` of `examples/dlopen.c`, run on platform `P` from the
last-error slot `slot` and the platform state `world`. -/
def main {τ : Type} (P : Platform τ) (slot : Option String) (world : τ) : Outcome τ :=
  let m0 := Machine.init slot world
  -- handle = dlopen("libm.so.6", RTLD_LAZY);
  let o := dlopen P "libm.so.6" Mode.RTLD_LAZY m0
  let handle := o.1
  -- if (!handle) { fprintf(stderr, "%s\n", dlerror()); exit(EXIT_FAILURE); }
  if handle = NULL then
    let q := dlerror o.2
    exit P.EXIT_FAILURE (fprintf_stderr_s P q.1 q.2)
  else
    -- dlerror();
    let c := dlerror o.2
    -- cosine = (double (*)(double)) dlsym(handle, "cos");
    let y := dlsym P handle "cos" c.2
    let cosine := y.1
    -- error = dlerror();
    let e := dlerror y.2
    let error := e.1
    -- if (error != NULL) { fprintf(stderr, "%s\n", error); exit(EXIT_FAILURE); }
    if error ≠ none then
      exit P.EXIT_FAILURE (fprintf_stderr_s P error e.2)
    else
      -- printf("%f\n", (*cosine)(2.0));
      let v := call P cosine Dbl.two e.2
      match v.1 with
      | none => killed v.2
      | some r =>
        let p := printf_f P r v.2
        -- dlclose(handle);
        let k := dlclose P handle p
        -- exit(EXIT_SUCCESS);
        exit EXIT_SUCCESS k.2

/-! ## What the platform answers to `main` -/

/-- The platform's answer to the `dlopen` call of `main`. -/
def opened {τ : Type} (P : Platform τ) (world : τ) : Ret Ptr τ :=
  P.dlopen "libm.so.6" Mode.RTLD_LAZY world

/-- The platform's answer to the `dlsym` call of `main`, made on the handle
and in the platform state the `dlopen` call left. -/
def resolved {τ : Type} (P : Platform τ) (world : τ) : Ret Ptr τ :=
  P.dlsym (opened P world).ret "cos" (opened P world).world

/-- The platform's answer to the call of the resolved address with `2.0`:
`none` when that call does not return. -/
def invoked {τ : Type} (P : Platform τ) (world : τ) : Option (Dbl × τ) :=
  P.call (resolved P world).ret Dbl.two (resolved P world).world

/-- The platform's answer to the `dlclose` call of `main`, made in the platform
state `after` that the call of the resolved address left. -/
def released {τ : Type} (P : Platform τ) (world : τ) (after : τ) : Ret Int τ :=
  P.dlclose (opened P world).ret after

/-! ## Reading a trace -/

/-- The `dlopen` requests of a trace: identifier and mode, in order. -/
def openRequests : List Event → List (String × Mode)
  | [] => []
  | Event.dlopen file mode _ :: t => (file, mode) :: openRequests t
  | _ :: t => openRequests t

/-- The handle returned by the first `dlopen` of a trace. -/
def openedHandle : List Event → Option Ptr
  | [] => none
  | Event.dlopen _ _ r :: _ => some r
  | _ :: t => openedHandle t

/-- The value returned by the error query that directly follows the first
`dlsym` of a trace (`some none`: the query returned `NULL`; `none`: there is
no such query). -/
def errorAfterResolve : List Event → Option (Option String)
  | [] => none
  | Event.dlsym _ _ _ :: Event.dlerror r :: _ => some r
  | _ :: t => errorAfterResolve t

/-- The addresses called through a function pointer, in order. -/
def calls : List Event → List Ptr
  | [] => []
  | Event.call addr _ _ :: t => addr :: calls t
  | _ :: t => calls t

/-- The handles passed to `dlclose`, in order. -/
def closes : List Event → List Ptr
  | [] => []
  | Event.dlclose handle _ :: t => handle :: closes t
  | _ :: t => closes t

/-- An error query: it reads and clears the last-error slot and does nothing
else. -/
def Event.isQuery : Event → Bool
  | Event.dlerror _ => true
  | _ => false

/-- An operation that needs the library handle to be open: a `dlsym` on it or
a call of an address resolved from it. -/
def Event.usesHandle : Event → Bool
  | Event.dlsym _ _ _ => true
  | Event.call _ _ _ => true
  | _ => false

/-- A `dlclose`. -/
def Event.isClose : Event → Bool
  | Event.dlclose _ _ => true
  | _ => false

/-- A call of the loader interface of `<dlfcn.h>`. -/
def Event.isLoader : Event → Bool
  | Event.dlopen _ _ _ => true
  | Event.dlerror _ => true
  | Event.dlsym _ _ _ => true
  | Event.dlclose _ _ => true
  | _ => false

/-- The observable operations of a trace: all but the error queries, which
only read and clear the last-error slot. -/
def operations (t : List Event) : List Event :=
  t.filter (fun e => !e.isQuery)

/-- Where the library handle of a run stands: not opened yet, open (with the
addresses resolved from it so far), or closed. -/
inductive HandleState where
  | unopened
  | opened (handle : Ptr) (bound : List Ptr)
  | closed
  deriving DecidableEq, Repr

/-- One step of the handle discipline: `none` when the operation is not allowed
in the state.  A `dlopen` is allowed only while nothing is open; `dlsym` and
`dlclose` only on the open handle; a call only of an address resolved from the
open handle; an error query only before the close.  Writing and `exit` are
always allowed. -/
def HandleState.step (s : HandleState) : Event → Option HandleState
  | Event.dlopen _ _ r =>
    match s with
    | HandleState.unopened =>
      if r = NULL then some HandleState.unopened else some (HandleState.opened r [])
    | _ => none
  | Event.dlerror _ =>
    match s with
    | HandleState.closed => none
    | _ => some s
  | Event.dlsym h _ a =>
    match s with
    | HandleState.opened handle bound =>
      if h = handle then some (HandleState.opened handle (a :: bound)) else none
    | _ => none
  | Event.call a _ _ =>
    match s with
    | HandleState.opened _ bound => if a ∈ bound then some s else none
    | _ => none
  | Event.dlclose h _ =>
    match s with
    | HandleState.opened handle _ => if h = handle then some HandleState.closed else none
    | _ => none
  | Event.printf _ _ => some s
  | Event.fprintf_stderr _ _ => some s
  | Event.exit _ => some s

/-- The handle discipline along a trace: the state reached, or `none` when some
operation was not allowed where it stands. -/
def lifecycle (s : HandleState) : List Event → Option HandleState
  | [] => some s
  | e :: t =>
    match s.step e with
    | some s' => lifecycle s' t
    | none => none

/-! ## A concrete platform -/

/-- The state of the platform `host`: the libraries the search path finds, the
symbols they export with their addresses, and the handles that are open. -/
structure Host where
  files : List String
  exports : List (String × Ptr)
  handles : List Ptr
  deriving DecidableEq, Repr

/-- The bit pattern of `cos(2.0)`, the double nearest to `-0.4161468365471424`. -/
def cosTwo : Dbl := ⟨0xBFDAA22657537205⟩

/-- A small platform.  Every library it finds is loaded at handle `7`; a symbol
resolves to the address its export table gives; the code at address `100` is
the cosine, known at `2.0`; a call anywhere else, the null address included,
does not return. -/
def host : Platform Host where
  dlopen := fun file _ w =>
    if file ∈ w.files then ⟨7, none, { w with handles := 7 :: w.handles }⟩
    else ⟨NULL, some (file ++ ": cannot open shared object file"), w⟩
  dlsym := fun h s w =>
    if h ∈ w.handles then
      match w.exports.lookup s with
      | some a => ⟨a, none, w⟩
      | none => ⟨NULL, some ("undefined symbol: " ++ s), w⟩
    else ⟨NULL, some "invalid handle", w⟩
  dlclose := fun h w =>
    if h ∈ w.handles then ⟨0, none, { w with handles := w.handles.erase h }⟩
    else ⟨-1, some "invalid handle", w⟩
  call := fun a x w => if a = 100 ∧ x = Dbl.two then some (cosTwo, w) else none
  fixed := fun x _ => if x = cosTwo then "-0.416147" else "0.000000"
  nullText := "(null)"
  EXIT_FAILURE := 1

/-- The host with the math library installed. -/
def withLibm : Host :=
  { files := ["libm.so.6"], exports := [("cos", 100)], handles := [] }

/-- The host without any library. -/
def withoutLibm : Host :=
  { files := [], exports := [], handles := [] }

/-- The host with a `libm.so.6` that does not export `cos`. -/
def withoutCos : Host :=
  { files := ["libm.so.6"], exports := [("sin", 101)], handles := [] }

/-- The host with a `libm.so.6` whose symbol `cos` has the value `NULL`. -/
def withNullCos : Host :=
  { files := ["libm.so.6"], exports := [("cos", NULL)], handles := [] }

/-! ## The shapes of a run -/

/-- A loader call made on an empty slot leaves exactly its own diagnostic. -/
theorem setError_none (diag : Option String) : setError none diag = diag := by
  cases diag <;> rfl

/-- The pattern of `Dbl.two` stands for the number two. -/
theorem Dbl.value_two : Dbl.two.value = some 2 := by
  have h1 : Dbl.two.exponent = 1024 := by decide
  have h2 : Dbl.two.sign = 0 := by decide
  have h3 : Dbl.two.fraction = 0 := by decide
  simp only [Dbl.value, h1, h2, h3]
  norm_num

/-- When `dlopen` returns `NULL`, `main` queries the error, prints it and
exits with `EXIT_FAILURE`. -/
theorem main_of_open_failed {τ : Type} (P : Platform τ) (slot : Option String) (world : τ)
    (h : (opened P world).ret = NULL) :
    main P slot world =
      { status := some P.EXIT_FAILURE,
        final :=
          { slot := none,
            world := (opened P world).world,
            stdout := "",
            stderr := cstr P (setError slot (opened P world).diag) ++ "\n",
            trace :=
              [Event.dlopen "libm.so.6" Mode.RTLD_LAZY NULL,
               Event.dlerror (setError slot (opened P world).diag),
               Event.fprintf_stderr "%s\n" (setError slot (opened P world).diag),
               Event.exit P.EXIT_FAILURE] } } := by
  simp only [opened] at h
  simp [main, dlopen, dlerror, exit, fprintf_stderr_s, Machine.init, opened, h]

/-- When `dlopen` returns a handle and `dlsym` stores the diagnostic `d`,
`main` prints `d` and exits with `EXIT_FAILURE`, without closing the handle. -/
theorem main_of_resolve_failed {τ : Type} (P : Platform τ) (slot : Option String) (world : τ)
    (d : String) (h : (opened P world).ret ≠ NULL) (hd : (resolved P world).diag = some d) :
    main P slot world =
      { status := some P.EXIT_FAILURE,
        final :=
          { slot := none,
            world := (resolved P world).world,
            stdout := "",
            stderr := d ++ "\n",
            trace :=
              [Event.dlopen "libm.so.6" Mode.RTLD_LAZY (opened P world).ret,
               Event.dlerror (setError slot (opened P world).diag),
               Event.dlsym (opened P world).ret "cos" (resolved P world).ret,
               Event.dlerror (some d),
               Event.fprintf_stderr "%s\n" (some d),
               Event.exit P.EXIT_FAILURE] } } := by
  simp only [opened, resolved] at h hd
  simp [main, dlopen, dlerror, dlsym, exit, fprintf_stderr_s, Machine.init, setError_none,
    cstr, opened, resolved, h, hd]

/-- When `dlopen` returns a handle, `dlsym` stores no diagnostic and the call
of the resolved address returns, `main` prints the result, closes the handle
and exits with `EXIT_SUCCESS`. -/
theorem main_of_resolved {τ : Type} (P : Platform τ) (slot : Option String) (world : τ)
    (v : Dbl × τ) (h : (opened P world).ret ≠ NULL) (hd : (resolved P world).diag = none)
    (hv : invoked P world = some v) :
    main P slot world =
      { status := some EXIT_SUCCESS,
        final :=
          { slot := (released P world v.2).diag,
            world := (released P world v.2).world,
            stdout := P.fixed v.1 6 ++ "\n",
            stderr := "",
            trace :=
              [Event.dlopen "libm.so.6" Mode.RTLD_LAZY (opened P world).ret,
               Event.dlerror (setError slot (opened P world).diag),
               Event.dlsym (opened P world).ret "cos" (resolved P world).ret,
               Event.dlerror none,
               Event.call (resolved P world).ret Dbl.two (some v.1),
               Event.printf "%f\n" v.1,
               Event.dlclose (opened P world).ret (released P world v.2).ret,
               Event.exit EXIT_SUCCESS] } } := by
  simp only [opened, resolved, invoked] at h hd hv
  simp [main, dlopen, dlerror, dlsym, dlclose, call, exit, printf_f, Machine.init,
    setError_none, opened, resolved, released, h, hd, hv]

/-- When `dlopen` returns a handle, `dlsym` stores no diagnostic and the call
of the resolved address does not return, the run ends at that call: nothing is
printed, the handle is not closed and `exit` is not reached. -/
theorem main_of_call_lost {τ : Type} (P : Platform τ) (slot : Option String) (world : τ)
    (h : (opened P world).ret ≠ NULL) (hd : (resolved P world).diag = none)
    (hv : invoked P world = none) :
    main P slot world =
      { status := none,
        final :=
          { slot := none,
            world := (resolved P world).world,
            stdout := "",
            stderr := "",
            trace :=
              [Event.dlopen "libm.so.6" Mode.RTLD_LAZY (opened P world).ret,
               Event.dlerror (setError slot (opened P world).diag),
               Event.dlsym (opened P world).ret "cos" (resolved P world).ret,
               Event.dlerror none,
               Event.call (resolved P world).ret Dbl.two none] } } := by
  simp only [opened, resolved, invoked] at h hd hv
  simp [main, dlopen, dlerror, dlsym, call, killed, Machine.init,
    setError_none, opened, resolved, h, hd, hv]

/-! ## Exit status -/

/-- C1, as stated, fails: on the host whose `cos` has the value `NULL`, `dlopen`
returns a non-null handle and the error query after `dlsym` returns `NULL`,
but the call of the null address does not return and the run does not end with
status 0: it never reaches `exit`. -/
theorem main_no_exit_when_call_is_lost :
    (opened host withNullCos).ret ≠ NULL ∧
      errorAfterResolve (main host none withNullCos).final.trace = some none ∧
      (main host none withNullCos).status ≠ some 0 ∧
      (main host none withNullCos).status = none := by
  decide

/-- C1, amended: for every platform whose `EXIT_FAILURE` is non-zero, `main`
exits with status 0 exactly when `dlopen` returned a non-null handle, the error
query after `dlsym` returned `NULL` and the call of the resolved address
returns; when `dlopen` returned `NULL` or that query returned an error it exits
with `EXIT_FAILURE`; in the remaining runs the call does not return and `main`
ends in it without reaching `exit`.  A run that has a status ends with the
`exit` of that status. -/
theorem main_exit_status {τ : Type} (P : Platform τ) (slot : Option String) (world : τ)
    (hF : P.EXIT_FAILURE ≠ 0) :
    (∀ s, (main P slot world).status = some s →
      (main P slot world).final.trace.getLast? = some (Event.exit s)) ∧
    openedHandle (main P slot world).final.trace = some (opened P world).ret ∧
    ((main P slot world).status = some 0 ↔
      (opened P world).ret ≠ NULL ∧
        errorAfterResolve (main P slot world).final.trace = some none ∧
        (invoked P world).isSome = true) ∧
    ((opened P world).ret = NULL ∨
        errorAfterResolve (main P slot world).final.trace ≠ some none →
      (main P slot world).status = some P.EXIT_FAILURE) ∧
    ((opened P world).ret ≠ NULL →
        errorAfterResolve (main P slot world).final.trace = some none →
        invoked P world = none →
      (main P slot world).status = none ∧
      (main P slot world).final.trace.getLast? =
        some (Event.call (resolved P world).ret Dbl.two none)) := by
  by_cases h : (opened P world).ret = NULL
  · rw [main_of_open_failed P slot world h]
    simp [openedHandle, errorAfterResolve, h, hF]
  · cases hd : (resolved P world).diag with
    | some d =>
      rw [main_of_resolve_failed P slot world d h hd]
      simp [openedHandle, errorAfterResolve, h, hF]
    | none =>
      cases hv : invoked P world with
      | none =>
        rw [main_of_call_lost P slot world h hd hv]
        simp [openedHandle, errorAfterResolve, h]
      | some v =>
        rw [main_of_resolved P slot world v h hd hv]
        simp [openedHandle, errorAfterResolve, h, EXIT_SUCCESS]

/-- The run on the host with the math library exits with status 0, the run on
the host without it with status 1. -/
theorem main_exit_status_witness :
    host.EXIT_FAILURE ≠ 0 ∧ (main host none withLibm).status = some 0 ∧
      (main host none withoutLibm).status = some 1 :=
  ⟨by decide,
   (main_exit_status host none withLibm (by decide)).2.2.1.2 ⟨by decide, by decide, by decide⟩,
   (main_exit_status host none withoutLibm (by decide)).2.2.2.1 (Or.inl (by decide))⟩

/-! ## The failure paths -/

/-- C2: when `dlopen` returns `NULL`, the run is exactly `dlopen`, the error
query, one `fprintf(stderr, "%s\n", ...)` of what the query returned, `exit`:
there is no `dlsym`, no call and no `dlclose`, nothing is written to stdout,
stderr holds the diagnostic the failed `dlopen` stored followed by a newline,
and the status is `EXIT_FAILURE`, non-zero. -/
theorem main_open_failure {τ : Type} (P : Platform τ) (slot : Option String) (world : τ)
    (h : (opened P world).ret = NULL) (hF : P.EXIT_FAILURE ≠ 0) :
    (main P slot world).final.trace =
      [Event.dlopen "libm.so.6" Mode.RTLD_LAZY NULL,
       Event.dlerror (setError slot (opened P world).diag),
       Event.fprintf_stderr "%s\n" (setError slot (opened P world).diag),
       Event.exit P.EXIT_FAILURE] ∧
    (∀ d, (opened P world).diag = some d → (main P slot world).final.stderr = d ++ "\n") ∧
    (main P slot world).final.stdout = "" ∧
    calls (main P slot world).final.trace = [] ∧
    closes (main P slot world).final.trace = [] ∧
    (main P slot world).status = some P.EXIT_FAILURE ∧
    (main P slot world).status ≠ some 0 := by
  rw [main_of_open_failed P slot world h]
  refine ⟨rfl, ?_, rfl, rfl, rfl, rfl, ?_⟩
  · intro d hd
    simp [hd, setError, cstr]
  · simpa using hF

/-- On the host without the library the loader's diagnostic reaches stderr. -/
theorem main_open_failure_witness :
    (opened host withoutLibm).ret = NULL ∧ host.EXIT_FAILURE ≠ 0 ∧
      (main host (some "stale") withoutLibm).final.stderr =
        "libm.so.6: cannot open shared object file\n" :=
  ⟨by decide, by decide,
   (main_open_failure host (some "stale") withoutLibm (by decide) (by decide)).2.1
     "libm.so.6: cannot open shared object file" (by decide)⟩

/-- C3: when `dlopen` returns a handle and `dlsym` reports an error `d`, the run
is exactly `dlopen`, the clearing query, `dlsym`, the error query returning
`d`, one `fprintf(stderr, "%s\n", d)`, `exit`: the resolved address is not
called, nothing is written to stdout, stderr holds `d` followed by a newline,
and the status is `EXIT_FAILURE`, non-zero. -/
theorem main_resolve_failure {τ : Type} (P : Platform τ) (slot : Option String) (world : τ)
    (d : String) (h : (opened P world).ret ≠ NULL) (hd : (resolved P world).diag = some d)
    (hF : P.EXIT_FAILURE ≠ 0) :
    (main P slot world).final.trace =
      [Event.dlopen "libm.so.6" Mode.RTLD_LAZY (opened P world).ret,
       Event.dlerror (setError slot (opened P world).diag),
       Event.dlsym (opened P world).ret "cos" (resolved P world).ret,
       Event.dlerror (some d),
       Event.fprintf_stderr "%s\n" (some d),
       Event.exit P.EXIT_FAILURE] ∧
    calls (main P slot world).final.trace = [] ∧
    (main P slot world).final.stdout = "" ∧
    (main P slot world).final.stderr = d ++ "\n" ∧
    (main P slot world).status = some P.EXIT_FAILURE ∧
    (main P slot world).status ≠ some 0 := by
  rw [main_of_resolve_failed P slot world d h hd]
  exact ⟨rfl, rfl, rfl, rfl, rfl, by simpa using hF⟩

/-- On the host whose library lacks `cos` nothing is called and the loader's
diagnostic reaches stderr. -/
theorem main_resolve_failure_witness :
    (opened host withoutCos).ret ≠ NULL ∧
      (resolved host withoutCos).diag = some "undefined symbol: cos" ∧
      host.EXIT_FAILURE ≠ 0 ∧
      calls (main host none withoutCos).final.trace = [] ∧
      (main host none withoutCos).final.stderr = "undefined symbol: cos\n" :=
  ⟨by decide, by decide, by decide,
   (main_resolve_failure host none withoutCos "undefined symbol: cos"
     (by decide) (by decide) (by decide)).2.1,
   (main_resolve_failure host none withoutCos "undefined symbol: cos"
     (by decide) (by decide) (by decide)).2.2.2.1⟩

/-! ## The success path -/

/-- C4, as stated, fails: on the host whose `cos` has the value `NULL`, the open
and the resolve both succeed, but the run stops at the call of the null
address: nothing is written, the handle is not closed and `exit` is not
reached. -/
theorem main_stops_at_call_of_null_address :
    (opened host withNullCos).ret ≠ NULL ∧ (resolved host withNullCos).diag = none ∧
      operations (main host none withNullCos).final.trace =
        [Event.dlopen "libm.so.6" Mode.RTLD_LAZY 7,
         Event.dlsym 7 "cos" NULL,
         Event.call NULL Dbl.two none] ∧
      (main host none withNullCos).final.stdout = "" ∧
      (main host none withNullCos).status = none := by
  decide

/-- C4, amended: when `dlopen` returns a handle, `dlsym` reports no error and
the call of the resolved address returns, the observable operations of the run
are exactly: `dlopen` in lazy mode, `dlsym` of `"cos"` on the handle, one call
of the resolved address with `2.0`, `printf("%f\n", ...)` of the value that
call returned, `dlclose` of the handle, `exit(0)`.  The only other steps are
the two error queries around `dlsym`.  Stdout holds the result in fixed
notation with six decimals followed by a newline, stderr is empty.  The
argument of the call is the binary64 pattern of the number two. -/
theorem main_success {τ : Type} (P : Platform τ) (slot : Option String) (world : τ)
    (v : Dbl × τ) (h : (opened P world).ret ≠ NULL) (hd : (resolved P world).diag = none)
    (hv : invoked P world = some v) :
    operations (main P slot world).final.trace =
      [Event.dlopen "libm.so.6" Mode.RTLD_LAZY (opened P world).ret,
       Event.dlsym (opened P world).ret "cos" (resolved P world).ret,
       Event.call (resolved P world).ret ⟨0x4000000000000000⟩ (some v.1),
       Event.printf "%f\n" v.1,
       Event.dlclose (opened P world).ret (released P world v.2).ret,
       Event.exit 0] ∧
    (main P slot world).final.trace =
      [Event.dlopen "libm.so.6" Mode.RTLD_LAZY (opened P world).ret,
       Event.dlerror (setError slot (opened P world).diag),
       Event.dlsym (opened P world).ret "cos" (resolved P world).ret,
       Event.dlerror none,
       Event.call (resolved P world).ret ⟨0x4000000000000000⟩ (some v.1),
       Event.printf "%f\n" v.1,
       Event.dlclose (opened P world).ret (released P world v.2).ret,
       Event.exit 0] ∧
    Dbl.value ⟨0x4000000000000000⟩ = some 2 ∧
    (main P slot world).final.stdout = P.fixed v.1 6 ++ "\n" ∧
    (main P slot world).final.stderr = "" ∧
    (main P slot world).status = some 0 := by
  rw [main_of_resolved P slot world v h hd hv]
  exact ⟨rfl, rfl, Dbl.value_two, rfl, rfl, rfl⟩

/-- On the host with the math library the run prints the cosine of `2.0`. -/
theorem main_success_witness :
    (opened host withLibm).ret ≠ NULL ∧ (resolved host withLibm).diag = none ∧
      invoked host withLibm = some (cosTwo, { withLibm with handles := [7] }) ∧
      operations (main host none withLibm).final.trace =
        [Event.dlopen "libm.so.6" Mode.RTLD_LAZY 7,
         Event.dlsym 7 "cos" 100,
         Event.call 100 ⟨0x4000000000000000⟩ (some cosTwo),
         Event.printf "%f\n" cosTwo,
         Event.dlclose 7 0,
         Event.exit 0] ∧
      (main host none withLibm).final.stdout = "-0.416147\n" :=
  ⟨by decide, by decide, by decide,
   (main_success host none withLibm (cosTwo, { withLibm with handles := [7] })
     (by decide) (by decide) (by decide)).1,
   (main_success host none withLibm (cosTwo, { withLibm with handles := [7] })
     (by decide) (by decide) (by decide)).2.2.2.1⟩

/-! ## Release of the handle -/

/-- C5, as stated, fails: on the host whose library lacks `cos`, `dlopen`
returns the non-null handle `7`, and the run ends with `exit(1)` without any
`dlclose`. -/
theorem main_leaves_handle_open_on_resolve_failure :
    (opened host withoutCos).ret = 7 ∧ (opened host withoutCos).ret ≠ NULL ∧
      closes (main host none withoutCos).final.trace = [] ∧
      (main host none withoutCos).final.trace.getLast? = some (Event.exit 1) := by
  decide

/-- C5, amended: in a run in which `dlopen` returned a non-null handle, that
handle is closed, once, as the last operation before `exit(0)`, when `dlsym`
reported no error and the call of the resolved address returns; when `dlsym`
reported an error, `main` exits with `EXIT_FAILURE` without any `dlclose`; when
the call of the resolved address does not return, the run ends in it without
any `dlclose` and without `exit`. -/
theorem main_closes_handle_iff_resolved {τ : Type} (P : Platform τ) (slot : Option String)
    (world : τ) (h : (opened P world).ret ≠ NULL) :
    (∀ v, (resolved P world).diag = none → invoked P world = some v →
      closes (main P slot world).final.trace = [(opened P world).ret] ∧
      (main P slot world).final.trace.drop 6 =
        [Event.dlclose (opened P world).ret (released P world v.2).ret, Event.exit 0] ∧
      (main P slot world).status = some 0) ∧
    ((resolved P world).diag ≠ none →
      closes (main P slot world).final.trace = [] ∧
      (main P slot world).final.trace.getLast? = some (Event.exit P.EXIT_FAILURE) ∧
      (main P slot world).status = some P.EXIT_FAILURE) ∧
    ((resolved P world).diag = none → invoked P world = none →
      closes (main P slot world).final.trace = [] ∧
      (main P slot world).final.trace.getLast? =
        some (Event.call (resolved P world).ret Dbl.two none) ∧
      (main P slot world).status = none) := by
  refine ⟨?_, ?_, ?_⟩
  · intro v hd hv
    rw [main_of_resolved P slot world v h hd hv]
    exact ⟨rfl, rfl, rfl⟩
  · intro hd
    cases hd' : (resolved P world).diag with
    | none => exact absurd hd' hd
    | some d =>
      rw [main_of_resolve_failed P slot world d h hd']
      exact ⟨rfl, rfl, rfl⟩
  · intro hd hv
    rw [main_of_call_lost P slot world h hd hv]
    exact ⟨rfl, rfl, rfl⟩

/-- On the host with the math library the handle `7` is closed; on the host
whose library lacks `cos` it is not, and the run exits with status 1; on the
host whose `cos` is `NULL` it is not, and the run does not exit. -/
theorem main_closes_handle_iff_resolved_witness :
    (opened host withLibm).ret ≠ NULL ∧ (opened host withoutCos).ret ≠ NULL ∧
      (opened host withNullCos).ret ≠ NULL ∧
      closes (main host none withLibm).final.trace = [7] ∧
      (closes (main host none withoutCos).final.trace = [] ∧
        (main host none withoutCos).final.trace.getLast? = some (Event.exit 1) ∧
        (main host none withoutCos).status = some 1) ∧
      (closes (main host none withNullCos).final.trace = [] ∧
        (main host none withNullCos).final.trace.getLast? =
          some (Event.call NULL Dbl.two none) ∧
        (main host none withNullCos).status = none) :=
  ⟨by decide, by decide, by decide,
   ((main_closes_handle_iff_resolved host none withLibm (by decide)).1
     (cosTwo, { withLibm with handles := [7] }) (by decide) (by decide)).1,
   (main_closes_handle_iff_resolved host none withoutCos (by decide)).2.1 (by decide),
   (main_closes_handle_iff_resolved host none withNullCos (by decide)).2.2
     (by decide) (by decide)⟩

/-! ## Use of the handle -/

/-- The discipline rejects a `dlsym` on a closed handle. -/
theorem lifecycle_rejects_resolve_after_close :
    lifecycle HandleState.unopened
      [Event.dlopen "libm.so.6" Mode.RTLD_LAZY 7, Event.dlclose 7 0,
       Event.dlsym 7 "cos" 100] = none := by
  decide

/-- The discipline rejects a call of a binding whose handle is closed. -/
theorem lifecycle_rejects_call_after_close :
    lifecycle HandleState.unopened
      [Event.dlopen "libm.so.6" Mode.RTLD_LAZY 7, Event.dlsym 7 "cos" 100,
       Event.dlclose 7 0, Event.call 100 Dbl.two (some cosTwo)] = none := by
  decide

/-- The discipline rejects a second `dlclose`. -/
theorem lifecycle_rejects_second_close :
    lifecycle HandleState.unopened
      [Event.dlopen "libm.so.6" Mode.RTLD_LAZY 7, Event.dlclose 7 0,
       Event.dlclose 7 0] = none := by
  decide

/-- The discipline rejects an error query after the close. -/
theorem lifecycle_rejects_query_after_close :
    lifecycle HandleState.unopened
      [Event.dlopen "libm.so.6" Mode.RTLD_LAZY 7, Event.dlclose 7 0,
       Event.dlerror none] = none := by
  decide

/-- The discipline rejects a `dlsym` when `dlopen` returned `NULL`. -/
theorem lifecycle_rejects_resolve_without_handle :
    lifecycle HandleState.unopened
      [Event.dlopen "libm.so.6" Mode.RTLD_LAZY NULL, Event.dlsym NULL "cos" 100] = none := by
  decide

/-- C6: in every run of `main`, a `dlsym` or a call of the resolved address is
preceded by a `dlopen` that returned a non-null handle and by no `dlclose`;
what follows a `dlclose` holds no loader operation and no call; there is at
most one `dlclose`; and the whole trace follows the handle discipline, under
which `dlsym` and `dlclose` are made on the handle that was opened and only
resolved addresses are called. -/
theorem main_handle_lifecycle {τ : Type} (P : Platform τ) (slot : Option String) (world : τ) :
    (∀ i e, (main P slot world).final.trace.get? i = some e → e.usesHandle = true →
      (∃ h, openedHandle ((main P slot world).final.trace.take i) = some h ∧ h ≠ NULL) ∧
      closes ((main P slot world).final.trace.take i) = []) ∧
    (∀ i e, (main P slot world).final.trace.get? i = some e → e.isClose = true →
      ∀ e' ∈ (main P slot world).final.trace.drop (i + 1),
        e'.isLoader = false ∧ e'.usesHandle = false) ∧
    (closes (main P slot world).final.trace).length ≤ 1 ∧
    lifecycle HandleState.unopened (main P slot world).final.trace ≠ none := by
  by_cases h : (opened P world).ret = NULL
  · rw [main_of_open_failed P slot world h]
    refine ⟨?_, ?_, ?_, ?_⟩
    · intro i e hi he
      rcases i with _ | _ | _ | _ | i
      all_goals simp at hi
      all_goals subst hi
      all_goals simp [Event.usesHandle] at he
    · intro i e hi he
      rcases i with _ | _ | _ | _ | i
      all_goals simp at hi
      all_goals subst hi
      all_goals simp [Event.isClose] at he
    · simp [closes]
    · simp [lifecycle, HandleState.step]
  · cases hd : (resolved P world).diag with
    | none =>
      cases hv : invoked P world with
      | none =>
        rw [main_of_call_lost P slot world h hd hv]
        refine ⟨?_, ?_, ?_, ?_⟩
        · intro i e hi he
          rcases i with _ | _ | _ | _ | _ | i
          all_goals simp at hi
          all_goals subst hi
          all_goals simp [Event.usesHandle] at he
          all_goals simp [openedHandle, closes, h]
        · intro i e hi he
          rcases i with _ | _ | _ | _ | _ | i
          all_goals simp at hi
          all_goals subst hi
          all_goals simp [Event.isClose] at he
        · simp [closes]
        · simp [lifecycle, HandleState.step, h]
      | some v =>
        rw [main_of_resolved P slot world v h hd hv]
        refine ⟨?_, ?_, ?_, ?_⟩
        · intro i e hi he
          rcases i with _ | _ | _ | _ | _ | _ | _ | _ | i
          all_goals simp at hi
          all_goals subst hi
          all_goals simp [Event.usesHandle] at he
          all_goals simp [openedHandle, closes, h]
        · intro i e hi he
          rcases i with _ | _ | _ | _ | _ | _ | _ | _ | i
          all_goals simp at hi
          all_goals subst hi
          all_goals simp [Event.isClose] at he
          all_goals simp [Event.isLoader, Event.usesHandle]
        · simp [closes]
        · simp [lifecycle, HandleState.step, h]
    | some d =>
      rw [main_of_resolve_failed P slot world d h hd]
      refine ⟨?_, ?_, ?_, ?_⟩
      · intro i e hi he
        rcases i with _ | _ | _ | _ | _ | _ | i
        all_goals simp at hi
        all_goals subst hi
        all_goals simp [Event.usesHandle] at he
        all_goals simp [openedHandle, closes, h]
      · intro i e hi he
        rcases i with _ | _ | _ | _ | _ | _ | i
        all_goals simp at hi
        all_goals subst hi
        all_goals simp [Event.isClose] at he
      · simp [closes]
      · simp [lifecycle, HandleState.step, h]

/-! ## The open request -/

/-- C7, as stated, fails: the identifier passed to `dlopen` is not `"libm"`. -/
theorem main_open_identifier_is_not_libm :
    openRequests (main host none withLibm).final.trace ≠ [("libm", Mode.RTLD_LAZY)] := by
  decide

/-- C7, amended: in every run `main` makes one `dlopen` request, for the
identifier `"libm.so.6"` in the lazy mode. -/
theorem main_open_request {τ : Type} (P : Platform τ) (slot : Option String) (world : τ) :
    openRequests (main P slot world).final.trace = [("libm.so.6", Mode.RTLD_LAZY)] := by
  by_cases h : (opened P world).ret = NULL
  · rw [main_of_open_failed P slot world h]
    rfl
  · cases hd : (resolved P world).diag with
    | none =>
      cases hv : invoked P world with
      | none =>
        rw [main_of_call_lost P slot world h hd hv]
        rfl
      | some v =>
        rw [main_of_resolved P slot world v h hd hv]
        rfl
    | some d =>
      rw [main_of_resolve_failed P slot world d h hd]
      rfl

/-! ## The last-error slot -/

/-- C8: whatever the last-error slot holds when `main` starts, the diagnostic
printed is the one the failing call stored.  When `dlopen` returns `NULL` and
stores `d`, the next operation is the error query, which returns `d`, and `d`
is what is printed; when `dlsym` stores `d`, the next operation is the error
query, which returns `d`, and `d` is what is printed.  Conversely, whenever
the error query after `dlsym` returns a diagnostic, `dlsym` stored it. -/
theorem main_prints_diagnostic_of_failing_call {τ : Type} (P : Platform τ)
    (slot : Option String) (world : τ) :
    (∀ d, (opened P world).ret = NULL → (opened P world).diag = some d →
      (main P slot world).final.trace =
        [Event.dlopen "libm.so.6" Mode.RTLD_LAZY NULL,
         Event.dlerror (some d),
         Event.fprintf_stderr "%s\n" (some d),
         Event.exit P.EXIT_FAILURE] ∧
      (main P slot world).final.stderr = d ++ "\n") ∧
    (∀ d, (opened P world).ret ≠ NULL → (resolved P world).diag = some d →
      (main P slot world).final.trace =
        [Event.dlopen "libm.so.6" Mode.RTLD_LAZY (opened P world).ret,
         Event.dlerror (setError slot (opened P world).diag),
         Event.dlsym (opened P world).ret "cos" (resolved P world).ret,
         Event.dlerror (some d),
         Event.fprintf_stderr "%s\n" (some d),
         Event.exit P.EXIT_FAILURE] ∧
      (main P slot world).final.stderr = d ++ "\n") ∧
    (∀ d, (opened P world).ret ≠ NULL →
      errorAfterResolve (main P slot world).final.trace = some (some d) →
      (resolved P world).diag = some d) := by
  refine ⟨?_, ?_, ?_⟩
  · intro d h hd
    rw [main_of_open_failed P slot world h]
    simp [hd, setError, cstr]
  · intro d h hd
    rw [main_of_resolve_failed P slot world d h hd]
    exact ⟨rfl, rfl⟩
  · intro d h
    cases hd : (resolved P world).diag with
    | none =>
      cases hv : invoked P world with
      | none =>
        rw [main_of_call_lost P slot world h hd hv]
        simp [errorAfterResolve]
      | some v =>
        rw [main_of_resolved P slot world v h hd hv]
        simp [errorAfterResolve]
    | some d' =>
      rw [main_of_resolve_failed P slot world d' h hd]
      simp [errorAfterResolve]

/-- With a stale diagnostic in the slot at the start, the host without the
library prints the diagnostic of the failed `dlopen`, and the host whose
library lacks `cos` prints the diagnostic of the failed `dlsym`. -/
theorem main_prints_diagnostic_of_failing_call_witness :
    (opened host withoutLibm).ret = NULL ∧
      (opened host withoutLibm).diag = some "libm.so.6: cannot open shared object file" ∧
      (main host (some "stale") withoutLibm).final.stderr =
        "libm.so.6: cannot open shared object file\n" ∧
      (opened host withoutCos).ret ≠ NULL ∧
      (resolved host withoutCos).diag = some "undefined symbol: cos" ∧
      (main host (some "stale") withoutCos).final.stderr = "undefined symbol: cos\n" :=
  ⟨by decide, by decide,
   ((main_prints_diagnostic_of_failing_call host (some "stale") withoutLibm).1
     "libm.so.6: cannot open shared object file" (by decide) (by decide)).2,
   by decide, by decide,
   ((main_prints_diagnostic_of_failing_call host (some "stale") withoutCos).2.1
     "undefined symbol: cos" (by decide) (by decide)).2⟩

/-- C9: when `dlopen` returns a handle, the run does not depend on what the
last-error slot holds: two runs on the same platform from the same platform
state, started with any two contents of the slot, end the same way (with the
same status, or both in a call that does not return), with the same stdout and
stderr, and the same operations with the same arguments and results, except
for the value returned by the clearing query (the second operation of the
trace). -/
theorem main_independent_of_stale_error {τ : Type} (P : Platform τ)
    (slot slot' : Option String) (world : τ) (h : (opened P world).ret ≠ NULL) :
    (main P slot world).status = (main P slot' world).status ∧
    (main P slot world).final.stdout = (main P slot' world).final.stdout ∧
    (main P slot world).final.stderr = (main P slot' world).final.stderr ∧
    (main P slot world).final.trace.eraseIdx 1 = (main P slot' world).final.trace.eraseIdx 1 ∧
    (main P slot world).final.trace.get? 1 =
      some (Event.dlerror (setError slot (opened P world).diag)) ∧
    (main P slot' world).final.trace.get? 1 =
      some (Event.dlerror (setError slot' (opened P world).diag)) := by
  cases hd : (resolved P world).diag with
  | none =>
    cases hv : invoked P world with
    | none =>
      rw [main_of_call_lost P slot world h hd hv, main_of_call_lost P slot' world h hd hv]
      exact ⟨rfl, rfl, rfl, rfl, rfl, rfl⟩
    | some v =>
      rw [main_of_resolved P slot world v h hd hv, main_of_resolved P slot' world v h hd hv]
      exact ⟨rfl, rfl, rfl, rfl, rfl, rfl⟩
  | some d =>
    rw [main_of_resolve_failed P slot world d h hd, main_of_resolve_failed P slot' world d h hd]
    exact ⟨rfl, rfl, rfl, rfl, rfl, rfl⟩

/-- On the host with the math library a stale diagnostic in the slot changes
nothing but the value the clearing query returns. -/
theorem main_independent_of_stale_error_witness :
    (opened host withLibm).ret ≠ NULL ∧
      (main host (some "stale") withLibm).status = (main host none withLibm).status ∧
      (main host (some "stale") withLibm).final.stdout =
        (main host none withLibm).final.stdout ∧
      (main host (some "stale") withLibm).final.stderr =
        (main host none withLibm).final.stderr :=
  ⟨by decide,
   (main_independent_of_stale_error host (some "stale") none withLibm (by decide)).1,
   (main_independent_of_stale_error host (some "stale") none withLibm (by decide)).2.1,
   (main_independent_of_stale_error host (some "stale") none withLibm (by decide)).2.2.1⟩

/-! ## What decides the call -/

/-- C10: when `dlopen` returns a handle, the error query after `dlsym` returns
what `dlsym` stored, and `main` calls the address `dlsym` returned, once,
exactly when that query returns `NULL`; otherwise it calls nothing.  The
address plays no part: when `dlsym` returns the null address and stores no
diagnostic, the null address is called (whether or not that call returns). -/
theorem main_calls_iff_no_error {τ : Type} (P : Platform τ) (slot : Option String)
    (world : τ) (h : (opened P world).ret ≠ NULL) :
    errorAfterResolve (main P slot world).final.trace = some (resolved P world).diag ∧
    (calls (main P slot world).final.trace = [(resolved P world).ret] ↔
      errorAfterResolve (main P slot world).final.trace = some none) ∧
    (errorAfterResolve (main P slot world).final.trace ≠ some none →
      calls (main P slot world).final.trace = []) ∧
    ((resolved P world).ret = NULL → (resolved P world).diag = none →
      calls (main P slot world).final.trace = [NULL]) := by
  cases hd : (resolved P world).diag with
  | none =>
    cases hv : invoked P world with
    | none =>
      rw [main_of_call_lost P slot world h hd hv]
      simp [errorAfterResolve, calls]
    | some v =>
      rw [main_of_resolved P slot world v h hd hv]
      simp [errorAfterResolve, calls]
  | some d =>
    rw [main_of_resolve_failed P slot world d h hd]
    simp [errorAfterResolve, calls]

/-- On the host whose `cos` has the value `NULL`, `dlsym` returns `NULL`
without an error and `main` calls the null address. -/
theorem main_calls_iff_no_error_witness :
    (opened host withNullCos).ret ≠ NULL ∧ (resolved host withNullCos).ret = NULL ∧
      (resolved host withNullCos).diag = none ∧
      calls (main host none withNullCos).final.trace = [NULL] :=
  ⟨by decide, by decide, by decide,
   (main_calls_iff_no_error host none withNullCos (by decide)).2.2.2 (by decide) (by decide)⟩

end Dlopen
